import Mathlib

/-!
Shallow embedding of the invoice-processing pipeline
(`src/workflows/orchestrator.py` and the four stage agents under
`src/agents/`, plus the leaf utilities under `src/data_processing/`).

Python conventions are modelled as follows:
* `dict[str, str]` error maps become association lists with unique keys,
  with insertion-order-preserving `dictSet` / `dictUpdate` mirroring
  `d[k] = v` and `d.update(other)`;
* `float` confidences, timings and scores become `ℚ` (every constant the
  code compares against — 0.8, 0.85, 0.9, 0.95, 0.1 — is exactly
  representable, so no rounding behaviour is lost);
* `datetime.date` and `Decimal` fields travel through this code only as
  their canonical string renderings (`strftime("%Y-%m-%d")`, `str(...)`,
  `float(...)`, `strptime`), so they are modelled as `String` fields;
* raised exceptions become `Except String` values, with the exception's
  `str(e)` text as the payload.
-/

/-- Python `d[k] = v` on an insertion-ordered dict modelled as an
association list: overwrite the value in place if the key exists,
otherwise append the pair at the end. -/
def dictSet (d : List (String × String)) (k v : String) : List (String × String) :=
  if d.any (fun p => p.1 = k) then
    d.map (fun p => if p.1 = k then (k, v) else p)
  else
    d ++ [(k, v)]

/-- Python `d.update(other)`: apply `dictSet` for every pair of `other`
in order. -/
def dictUpdate (d other : List (String × String)) : List (String × String) :=
  other.foldl (fun acc p => dictSet acc p.1 p.2) d

/-- Whether `pat` occurs at the start of `s` (over character lists). -/
def isPrefixOfList : List Char → List Char → Bool
  | [], _ => true
  | _ :: _, [] => false
  | a :: as, b :: bs => a == b && isPrefixOfList as bs

/-- Python `pat in s` substring containment, over character lists. -/
def containsList (pat : List Char) : List Char → Bool
  | [] => isPrefixOfList pat []
  | c :: rest => isPrefixOfList pat (c :: rest) || containsList pat rest

/-- Python `pat in s` substring test on strings. -/
def strContains (s pat : String) : Bool :=
  containsList pat.data s.data

/-- Split a character list at every occurrence of the separator character
(Python `s.split(sep)` for a one-character separator). -/
def splitOnChar (sep : Char) : List Char → List (List Char)
  | [] => [[]]
  | c :: cs =>
    let r := splitOnChar sep cs
    if c == sep then [] :: r
    else
      match r with
      | [] => [[c]]
      | h :: t => (c :: h) :: t

/-- Numeric value of a list of decimal digit characters (most significant
first). -/
def natOfDigits (cs : List Char) : ℕ :=
  cs.foldl (fun a c => 10 * a + (c.toNat - 48)) 0

/-- Shape-level parse underlying the model of Python `float(s)`: an
optional sign, then digits with at most one decimal point and at least one
digit somewhere.  Returns (negative?, integer-part value, fractional-part
value, fractional-part length). -/
def pyFloatParts? (s : String) : Option (Bool × ℕ × ℕ × ℕ) :=
  let signed : Bool × List Char :=
    match s.data with
    | '-' :: r => (true, r)
    | '+' :: r => (false, r)
    | r => (false, r)
  let body := signed.2
  let ip := body.takeWhile (fun c => !(c == '.'))
  let rest := body.dropWhile (fun c => !(c == '.'))
  if ip.all Char.isDigit then
    match rest with
    | [] =>
      if ip.isEmpty then none
      else some (signed.1, natOfDigits ip, 0, 0)
    | _ :: frac =>
      if frac.contains '.' then none
      else if ip.isEmpty && frac.isEmpty then none
      else if frac.all Char.isDigit then
        some (signed.1, natOfDigits ip, natOfDigits frac, frac.length)
      else none
  else none

/-- Model of Python `float(s)` restricted to the plain decimal forms this
repository produces (such as "7595.00", "-3.5", "100", "5.", ".5").
Exotic inputs CPython also accepts (exponents, inf, nan, underscores,
surrounding whitespace) are rejected here; no claim in scope exercises
them. -/
def pyFloat? (s : String) : Option ℚ :=
  (pyFloatParts? s).map (fun p =>
    (if p.1 then (-1 : ℚ) else 1) *
      ((p.2.1 : ℚ) + (p.2.2.1 : ℚ) / (10 : ℚ) ^ p.2.2.2))

/-- Gregorian leap-year rule, as applied by `datetime`. -/
def isLeapYear (y : ℕ) : Bool :=
  y % 4 == 0 && (!(y % 100 == 0) || y % 400 == 0)

/-- Number of days in month `m` of year `y`, as validated by
`datetime.datetime`. -/
def daysInMonth (y m : ℕ) : ℕ :=
  if m == 2 then (if isLeapYear y then 29 else 28)
  else if m == 4 || m == 6 || m == 9 || m == 11 then 30
  else 31

/-- Model of `datetime.strptime(s, "%Y-%m-%d")` succeeding: CPython's
`_strptime` matches `%Y` as exactly four digits, `%m` as one or two digits
denoting 1..12, `%d` as one or two digits denoting 1..31, with literal
dashes in between and nothing left over; `datetime` then rejects a day
beyond the month's length and a year below 1. -/
def validYMD (s : String) : Bool :=
  match splitOnChar '-' s.data with
  | [ys, ms, ds] =>
    let y := natOfDigits ys
    let m := natOfDigits ms
    let d := natOfDigits ds
    ys.length == 4 && ys.all Char.isDigit &&
    (ms.length == 1 || ms.length == 2) && ms.all Char.isDigit &&
    1 ≤ m && m ≤ 12 &&
    (ds.length == 1 || ds.length == 2) && ds.all Char.isDigit &&
    1 ≤ d && 1 ≤ y &&
    d ≤ daysInMonth y m
  | _ => false

/-! ## Confidence scorer (`src/data_processing/confidence_scoring.py`) -/

/-- Python values as they reach `compute_confidence_score`: strings,
numbers, or nested dicts (the `{"value": ..., "confidence": ...}` field
structures). -/
inductive PyVal where
  | vstr : String → PyVal
  | vnum : ℚ → PyVal
  | vdict : List (String × PyVal) → PyVal

/-- Whether the mapping has a `"vendor_name"` key whose value is not a
dict — the code's test for the flat "OpenAI" shape
(`"vendor_name" in extracted_data and not isinstance(..., dict)`). -/
def hasBareVendorName (extracted_data : List (String × PyVal)) : Bool :=
  match extracted_data.lookup "vendor_name" with
  | some (PyVal.vdict _) => false
  | some _ => true
  | none => false

/-- The list comprehension
`[field["confidence"] for field in extracted_data.values()
  if isinstance(field, dict) and "confidence" in field]`,
keeping only numeric confidences (a non-numeric one is handled by
`anyNonNumericConfidence` below). -/
def confidencesOf (extracted_data : List (String × PyVal)) : List ℚ :=
  extracted_data.filterMap (fun p =>
    match p.2 with
    | PyVal.vdict fields =>
      match fields.lookup "confidence" with
      | some (PyVal.vnum q) => some q
      | _ => none
    | _ => none)

/-- Whether some dict-valued entry carries a `"confidence"` key bound to a
non-numeric value: in Python `sum(confidences)` then raises `TypeError`,
which the function's blanket handler turns into `0.0`. -/
def anyNonNumericConfidence (extracted_data : List (String × PyVal)) : Bool :=
  extracted_data.any (fun p =>
    match p.2 with
    | PyVal.vdict fields =>
      match fields.lookup "confidence" with
      | some (PyVal.vnum _) => false
      | some _ => true
      | none => false
    | _ => false)

/-- Definition of `compute_confidence_score` from
`src/data_processing/confidence_scoring.py`: empty input gives 0.0; a flat
mapping with a bare `"vendor_name"` entry gives the fixed 0.95; otherwise
the mean of the numeric per-field confidences, 0.0 when there are none
(and 0.0 via the exception handler when a confidence is non-numeric). -/
def compute_confidence_score (extracted_data : List (String × PyVal)) : ℚ :=
  if extracted_data.isEmpty then 0
  else if hasBareVendorName extracted_data then 95 / 100
  else if anyNonNumericConfidence extracted_data then 0
  else
    let confidences := confidencesOf extracted_data
    if confidences.isEmpty then 0
    else confidences.sum / (confidences.length : ℚ)

example : pyFloatParts? "7595.00" = some (false, 7595, 0, 2) := by decide
example : pyFloatParts? "-3.5" = some (true, 3, 5, 1) := by decide
example : pyFloatParts? "abc" = none := by decide
example : pyFloat? "7595.00" = some (7595 : ℚ) := by
  simp [pyFloat?, pyFloatParts?, natOfDigits]
example : validYMD "2024-02-18" = true := by decide
example : validYMD "2023-02-29" = false := by decide
example : validYMD "2024-2-9" = true := by decide
example : validYMD "2024-13-01" = false := by decide
example : strContains "missing 'vendor_name' key" "'vendor_name'" = true := by decide
/-- The mapping used in the spec's scorer round-trip property. -/
def scorerRoundTripInput : List (String × PyVal) :=
  [("a", PyVal.vdict [("value", PyVal.vstr "x"), ("confidence", PyVal.vnum (9/10))]),
   ("b", PyVal.vdict [("value", PyVal.vstr "y"), ("confidence", PyVal.vnum (7/10))])]

example : compute_confidence_score scorerRoundTripInput = 8 / 10 := by
  have h1 : hasBareVendorName scorerRoundTripInput = false := by decide
  have h2 : anyNonNumericConfidence scorerRoundTripInput = false := by decide
  have h3 : confidencesOf scorerRoundTripInput = [9/10, 7/10] := rfl
  have h4 : scorerRoundTripInput.isEmpty = false := rfl
  rw [compute_confidence_score, h1, h2, h3, h4]
  norm_num

/-! ## Data model (`src/models/invoice.py`, `src/models/validation_schema.py`) -/

/-- Model of `InvoiceData` from `src/models/invoice.py`.  The `invoice_date`
(`datetime.date`) and `total_amount`/`tax_amount` (`Decimal`) fields are
carried as their canonical string renderings, which is the only way the
code in scope consumes them (`strftime("%Y-%m-%d")`, `str(...)`,
`float(...)`, `strptime(str(...), ...)`); an empty string plays the role
of a Python-falsy field value. -/
structure InvoiceData where
  vendor_name : String
  invoice_number : String
  invoice_date : String
  total_amount : String
  confidence : ℚ
  po_number : Option String
  tax_amount : Option String
  currency : Option String

/-- Model of `ValidationResult` from `src/models/validation_schema.py`: a status
string ("valid" or "failed") plus the error map. -/
structure ValidationResult where
  status : String
  errors : List (String × String)

/-! ## Anomaly detection (`src/data_processing/anomaly_detection.py`) -/

/-- The in-memory state of an `AnomalyDetector` instance: the
`past_invoices` history list. -/
structure AnomalyDetector where
  past_invoices : List InvoiceData

/-- The duplicate check of `detect_anomalies`: scan the history for an
invoice with the exact same invoice number (the Python loop breaks at the
first hit; a dict with a single key is order-equivalent to `List.any`). -/
def duplicateAnomaly (past : List InvoiceData) (invoice_data : InvoiceData) :
    List (String × String) :=
  if past.any (fun p => decide (p.invoice_number = invoice_data.invoice_number)) then
    [("duplicate", "Duplicate invoice number: " ++ invoice_data.invoice_number)]
  else []

/-- The outlier check of `detect_anomalies`: with a non-empty history,
take the totals of the past invoices with a truthy `total_amount`, form
`sorted(totals)[len(totals) // 2]` as the median, and flag the current
total when it exceeds twice the median or falls below half of it.
Unparsable amount strings (on which Python `float` would raise out of the
whole validation stage) are skipped; no claim in scope exercises them.
Numeric renderings inside the message use `toString` on `ℚ` in place of
Python float formatting; no claim depends on this message's text. -/
def outlierAnomaly (past : List InvoiceData) (invoice_data : InvoiceData) :
    List (String × String) :=
  if past.isEmpty then []
  else
    let totals := past.filterMap (fun p =>
      if p.total_amount = "" then none else pyFloat? p.total_amount)
    if totals.isEmpty then []
    else
      let sorted := totals.mergeSort (fun a b => decide (a ≤ b))
      let median_total := sorted.getD (totals.length / 2) 0
      match pyFloat? invoice_data.total_amount with
      | none => []
      | some current_total =>
        if current_total > 2 * median_total ∨ current_total < (1/2 : ℚ) * median_total then
          [("total_amount", "Unusual total: " ++ toString current_total ++
            " (median: " ++ toString median_total ++ ")")]
        else []

/-- Definition of `AnomalyDetector.detect_anomalies` called with the instance history
(the validator's call site passes no explicit history): returns the
anomaly error map and the updated detector, whose history has the current
invoice appended.  The duplicate and outlier checks write to the distinct
keys "duplicate" and "total_amount", so the two sequential dict
assignments amount to concatenation. -/
def AnomalyDetector.detect_anomalies (det : AnomalyDetector) (invoice_data : InvoiceData) :
    List (String × String) × AnomalyDetector :=
  (duplicateAnomaly det.past_invoices invoice_data ++
     outlierAnomaly det.past_invoices invoice_data,
   { past_invoices := det.past_invoices ++ [invoice_data] })

/-! ## Validation stage (`src/agents/validator_agent.py`) -/

/-- The error map `InvoiceValidationAgent.run` accumulates: the five
checks in source order (missing fields; numeric total; date format;
confidence floor; anomaly detection merged in with `errors.update`).  An
empty string is a Python-falsy field value.  The confidence error message
renders the score with `toString`; no claim depends on that text. -/
def validationErrors (det : AnomalyDetector) (invoice_data : InvoiceData) :
    List (String × String) :=
  let errors : List (String × String) := []
  let errors := if invoice_data.vendor_name = "" then dictSet errors "vendor_name" "Missing" else errors
  let errors := if invoice_data.invoice_number = "" then dictSet errors "invoice_number" "Missing" else errors
  let errors := if invoice_data.invoice_date = "" then dictSet errors "invoice_date" "Missing" else errors
  let errors :=
    if invoice_data.total_amount = "" then dictSet errors "total_amount" "Missing"
    else
      match pyFloat? invoice_data.total_amount with
      | some total =>
        if total < 0 then dictSet errors "total_amount" "Negative value not allowed" else errors
      | none => dictSet errors "total_amount" "Invalid numeric format"
  let errors :=
    if invoice_data.invoice_date = "" then errors
    else if validYMD invoice_data.invoice_date then errors
    else dictSet errors "invoice_date" "Invalid date format (expected YYYY-MM-DD)"
  let errors :=
    if invoice_data.confidence < 8/10 then
      dictSet errors "confidence" ("Low confidence score: " ++ toString invoice_data.confidence)
    else errors
  dictUpdate errors (det.detect_anomalies invoice_data).1

/-- Definition of `InvoiceValidationAgent.run`: report status "failed" exactly when the
accumulated error map is non-empty.  Returns the result together with the
agent's updated detector state. -/
def InvoiceValidationAgent.run (det : AnomalyDetector) (invoice_data : InvoiceData) :
    ValidationResult × AnomalyDetector :=
  ({ status := if (validationErrors det invoice_data).isEmpty then "valid" else "failed",
     errors := validationErrors det invoice_data },
   (det.detect_anomalies invoice_data).2)

/-! ## Review stage (`src/agents/human_review_agent.py`) -/

/-- The dict returned by `HumanReviewAgent.run`: a status, the echoed
invoice data, and — only in the `needs_review` branch — the validation
error map. -/
structure ReviewTask where
  status : String
  invoice_data : InvoiceData
  validation_errors : Option (List (String × String))

/-- Definition of `HumanReviewAgent.run`: flag for review when the invoice confidence is
below 0.8 or validation did not pass, else approve. -/
def HumanReviewAgent.run (invoice_data : InvoiceData) (validation_result : ValidationResult) :
    ReviewTask :=
  if invoice_data.confidence < 8/10 ∨ validation_result.status ≠ "valid" then
    { status := "needs_review", invoice_data := invoice_data,
      validation_errors := some validation_result.errors }
  else
    { status := "approved", invoice_data := invoice_data, validation_errors := none }

/-! ## Matching stage (`src/agents/matching_agent.py`) -/

/-- One row of the PO reference table (`data/raw/vendor_data.csv`):
the "Vendor Name" and "Approved PO List" columns the agent reads. -/
structure PORow where
  vendor_name : String
  approved_po : String

/-- The dict returned by `PurchaseOrderMatchingAgent.run`. -/
structure MatchResult where
  status : String
  po_number : Option String
  match_confidence : ℚ

/-- Python `s.lower()`. -/
def strLower (s : String) : String := String.mk (s.data.map Char.toLower)

/-- The `matches` list built by the loop in
`PurchaseOrderMatchingAgent.run`, parameterized by the external
`fuzzywuzzy.fuzz.token_sort_ratio` scorer (`fuzzRatio`, an integer score
on the 0–100 scale): every row whose normalized score exceeds 0.85, as a
(po number, confidence) pair, in table iteration order.  (Named
`matchCandidates`; `matches` is reserved in Lean.) -/
def matchCandidates (fuzzRatio : String → String → ℕ)
    (po_data : List PORow) (invoice_data : InvoiceData) : List (String × ℚ) :=
  po_data.filterMap (fun po =>
    let vendor_similarity := fuzzRatio (strLower invoice_data.vendor_name) (strLower po.vendor_name)
    let match_confidence : ℚ := (vendor_similarity : ℚ) / 100
    if match_confidence > 85/100 then some (po.approved_po, match_confidence) else none)

/-- The selection step of `PurchaseOrderMatchingAgent.run` over the
collected candidates: `max(matches, key=...)` — which keeps the first
element attaining the maximum — yields the matched row; with no candidate
the result is unmatched with confidence 0.0. -/
def PurchaseOrderMatchingAgent.run (fuzzRatio : String → String → ℕ)
    (po_data : List PORow) (invoice_data : InvoiceData) : MatchResult :=
  match matchCandidates fuzzRatio po_data invoice_data with
  | [] => { status := "unmatched", po_number := none, match_confidence := 0 }
  | m :: ms =>
    let best := ms.foldl (fun acc x => if x.2 > acc.2 then x else acc) m
    { status := "matched", po_number := some best.1, match_confidence := best.2 }

/-! ## Retry wrapper (`InvoiceProcessingWorkflow._retry_with_backoff`) -/

/-- Result of the retry loop: a returned value, a re-raised exception from
the final attempt, or the Python `None` that falls out when
`max_retries = 0` makes the loop body never run. -/
inductive RetryOutcome (ε α : Type) where
  | ok : α → RetryOutcome ε α
  | raised : ε → RetryOutcome ε α
  | noAttempt : RetryOutcome ε α

/-- The body of `for attempt in range(max_retries)`: the wrapped operation
is modelled as a function `f` from the attempt index to that attempt's
outcome; the returned list collects the durations passed to
`asyncio.sleep` in order. -/
def retryOver (f : ℕ → Except ε α) (base_delay : ℚ) (max_retries : ℕ) :
    List ℕ → List ℚ × RetryOutcome ε α
  | [] => ([], RetryOutcome.noAttempt)
  | attempt :: rest =>
    match f attempt with
    | Except.ok a => ([], RetryOutcome.ok a)
    | Except.error e =>
      if attempt == max_retries - 1 then ([], RetryOutcome.raised e)
      else
        let delay := base_delay * 2 ^ attempt
        let r := retryOver f base_delay max_retries rest
        (delay :: r.1, r.2)

/-- Definition of `InvoiceProcessingWorkflow._retry_with_backoff`: iterate the attempts
`range(max_retries)`, returning the first success, re-raising the last
attempt's exception, and sleeping `base_delay * 2 ** attempt` between
attempts. -/
def InvoiceProcessingWorkflow.retry_with_backoff (f : ℕ → Except ε α)
    (max_retries : ℕ) (base_delay : ℚ) : List ℚ × RetryOutcome ε α :=
  retryOver f base_delay max_retries (List.range max_retries)

/-! ## Orchestrator (`src/workflows/orchestrator.py`) -/

/-- The mutable `extracted_dict` the orchestrator builds after extraction:
the eight extracted fields plus the bookkeeping keys.  `file_name` and
`reason` model keys that are only inserted on the anomaly paths (`none`
until then). -/
structure ExtractedDict where
  vendor_name : String
  invoice_number : String
  invoice_date : String
  total_amount : String
  confidence : ℚ
  po_number : Option String
  tax_amount : Option String
  currency : Option String
  validation_status : String
  review_status : String
  file_name : Option String
  reason : Option String

/-- A flat `invoice_entry` dict as handed to `_save_invoice_entry` /
`_save_anomaly_entry` and returned from the error paths.  Keys a given
path never inserts are `none`; the five timing keys are present on every
path. -/
structure InvoiceRecord where
  status : Option String
  message : Option String
  vendor_name : Option String
  invoice_number : Option String
  invoice_date : Option String
  total_amount : Option String
  confidence : Option ℚ
  po_number : Option String
  tax_amount : Option String
  currency : Option String
  validation_status : Option String
  review_status : Option String
  file_name : Option String
  reason : Option String
  validation_errors : Option (List (String × String))
  matching_status : Option String
  matching_error : Option String
  review_error : Option String
  extraction_time : ℚ
  validation_time : ℚ
  matching_time : ℚ
  review_time : ℚ
  total_time : ℚ

/-- The record with no keys set (building block for the per-path
records). -/
def emptyRecord : InvoiceRecord :=
  { status := none, message := none, vendor_name := none, invoice_number := none,
    invoice_date := none, total_amount := none, confidence := none, po_number := none,
    tax_amount := none, currency := none, validation_status := none, review_status := none,
    file_name := none, reason := none, validation_errors := none, matching_status := none,
    matching_error := none, review_error := none, extraction_time := 0, validation_time := 0,
    matching_time := 0, review_time := 0, total_time := 0 }

/-- The `{**extracted_dict, ...}` spread: every key of the extracted dict
copied into a record. -/
def baseRecord (d : ExtractedDict) : InvoiceRecord :=
  { emptyRecord with
    vendor_name := some d.vendor_name,
    invoice_number := some d.invoice_number,
    invoice_date := some d.invoice_date,
    total_amount := some d.total_amount,
    confidence := some d.confidence,
    po_number := d.po_number,
    tax_amount := d.tax_amount,
    currency := d.currency,
    validation_status := some d.validation_status,
    review_status := some d.review_status,
    file_name := d.file_name,
    reason := d.reason }

/-- The nested dict returned on the anomaly short-circuit
(orchestrator lines 128–139), including its literal `"anomaly": True`
key and the synthesized skipped matching/review results. -/
structure AnomalyReturn where
  anomaly : Bool
  extracted_data : ExtractedDict
  validation_result : ValidationResult
  matching_result : MatchResult
  review_status : String
  review_invoice_data : ExtractedDict
  extraction_time : ℚ
  validation_time : ℚ
  matching_time : ℚ
  review_time : ℚ
  total_time : ℚ

/-- The nested dict returned when all four stages complete
(orchestrator lines 234–244). -/
structure SuccessReturn where
  extracted_data : ExtractedDict
  validation_result : ValidationResult
  matching_result : MatchResult
  review_result : ReviewTask
  extraction_time : ℚ
  validation_time : ℚ
  matching_time : ℚ
  review_time : ℚ
  total_time : ℚ

/-- The value `process_invoice` returns to its caller: a flat error/partial
record, the anomaly dict, or the full success dict. -/
inductive PipelineOutcome where
  | entry : InvoiceRecord → PipelineOutcome
  | anomalous : AnomalyReturn → PipelineOutcome
  | completed : SuccessReturn → PipelineOutcome

/-- Which JSON sink a record was persisted to: `structured_invoices.json`
(`_save_invoice_entry`) or `anomalies.json` (`_save_anomaly_entry`). -/
inductive Sink where
  | invoices : Sink
  | anomalies : Sink

/-- One completed run: the returned value plus the single record the run
persisted and the sink it went to (every return in `process_invoice` is
preceded by exactly one save). -/
structure RunResult where
  retval : PipelineOutcome
  sink : Sink
  saved : InvoiceRecord

/-- The environment of one `process_invoice` call: whether the document
path already lies under `data/temp` (in which case no initial copy
happens), the outcome of the initial `shutil.copy2` into the temp
directory otherwise, `os.path.basename(document_path)` after that step,
the per-attempt behaviour of each of the four stage agents, the wall-clock
duration `Monitoring.stop_timer` reports for each stage, and the
`save_pdf` flag. -/
structure WorkflowEnv where
  in_temp : Bool
  copy_to_temp : Except String Unit
  basename : String
  extraction : ℕ → Except String InvoiceData
  validation : ℕ → Except String ValidationResult
  matching : ℕ → Except String MatchResult
  review : ℕ → Except String ReviewTask
  extraction_time : ℚ
  validation_time : ℚ
  matching_time : ℚ
  review_time : ℚ
  save_pdf : Bool

/-- A stage call wrapped in `_retry_with_backoff` with the orchestrator's
fixed arguments `max_retries=3, base_delay=1`: a success returns the
value, exhausted retries re-raise the last exception.  The `noAttempt`
outcome is unreachable for `max_retries = 3` (see `retry3_not_noAttempt`)
and is mapped to an arbitrary error. -/
def runStage (f : ℕ → Except String α) : Except String α :=
  match (InvoiceProcessingWorkflow.retry_with_backoff f 3 1).2 with
  | RetryOutcome.ok a => Except.ok a
  | RetryOutcome.raised e => Except.error e
  | RetryOutcome.noAttempt => Except.error ""

/-- The tail of `process_invoice` from the MATCH state on (orchestrator
lines 165–247), reached both when validation passed and when it failed
with a vendor name present; `extracted_dict` carries whatever mutations
happened before this point.  No exception can escape this tail: both
stage calls are wrapped and both handlers build a record.  The final PDF
copy (lines 229–232) copies the temp file made at entry into the
already-created processed directory and writes no record, so it is not
modelled. -/
def processFromMatching (env : WorkflowEnv) (extracted_dict : ExtractedDict)
    (validation_result : ValidationResult) : RunResult :=
  match runStage env.matching with
  | Except.error e =>
    let entry := { baseRecord extracted_dict with
      validation_status := some validation_result.status,
      matching_status := some "error",
      matching_error := some e,
      review_status := some "skipped",
      extraction_time := env.extraction_time,
      validation_time := env.validation_time,
      matching_time := env.matching_time,
      review_time := 0,
      total_time := env.extraction_time + env.validation_time + env.matching_time }
    { retval := PipelineOutcome.entry entry, sink := Sink.invoices, saved := entry }
  | Except.ok matching_result =>
    match runStage env.review with
    | Except.error e =>
      let entry := { baseRecord extracted_dict with
        validation_status := some validation_result.status,
        matching_status := some matching_result.status,
        review_status := some "error",
        review_error := some e,
        extraction_time := env.extraction_time,
        validation_time := env.validation_time,
        matching_time := env.matching_time,
        review_time := env.review_time,
        total_time := env.extraction_time + env.validation_time + env.matching_time +
          env.review_time }
      { retval := PipelineOutcome.entry entry, sink := Sink.invoices, saved := entry }
    | Except.ok review_result =>
      let total_time := env.extraction_time + env.validation_time + env.matching_time +
        env.review_time
      let entry := { baseRecord extracted_dict with
        validation_status := some validation_result.status,
        matching_status := some matching_result.status,
        review_status := some review_result.status,
        extraction_time := env.extraction_time,
        validation_time := env.validation_time,
        matching_time := env.matching_time,
        review_time := env.review_time,
        total_time := total_time }
      { retval := PipelineOutcome.completed
          { extracted_data := extracted_dict,
            validation_result := validation_result,
            matching_result := matching_result,
            review_result := review_result,
            extraction_time := env.extraction_time,
            validation_time := env.validation_time,
            matching_time := env.matching_time,
            review_time := env.review_time,
            total_time := total_time },
        sink := Sink.invoices, saved := entry }

/-- Definition of `InvoiceProcessingWorkflow.process_invoice`.  The initial
`shutil.copy2` into the temp directory runs before the first `try`, so its
failure escapes to the caller (`Except.error`); after that point every
stage failure is translated into a record.  Mirrors the source line by
line; the fall-through from the VALIDATE state to MATCH (both when
validation passed and when it failed with a vendor name present) is the
shared tail `processFromMatching`. -/
def InvoiceProcessingWorkflow.process_invoice (env : WorkflowEnv) :
    Except String RunResult :=
  match (if env.in_temp then Except.ok () else env.copy_to_temp) with
  | Except.error e => Except.error e
  | Except.ok _ =>
    match runStage env.extraction with
    | Except.error e =>
      let entry := { emptyRecord with
        status := some "error", message := some e,
        extraction_time := env.extraction_time, validation_time := 0,
        matching_time := 0, review_time := 0, total_time := env.extraction_time }
      Except.ok { retval := PipelineOutcome.entry entry, sink := Sink.invoices, saved := entry }
    | Except.ok extracted_data =>
      let review_status :=
        if extracted_data.confidence < 90/100 then "needs_review" else "complete"
      let extracted_dict : ExtractedDict :=
        { vendor_name := extracted_data.vendor_name,
          invoice_number := extracted_data.invoice_number,
          invoice_date := extracted_data.invoice_date,
          total_amount := extracted_data.total_amount,
          confidence := extracted_data.confidence,
          po_number := extracted_data.po_number,
          tax_amount := extracted_data.tax_amount,
          currency := extracted_data.currency,
          validation_status := "pending",
          review_status := review_status,
          file_name := none,
          reason := none }
      match runStage env.validation with
      | Except.error e =>
        let entry0 := { baseRecord extracted_dict with
          status := some "error", message := some e,
          extraction_time := env.extraction_time, validation_time := env.validation_time,
          matching_time := 0, review_time := 0,
          total_time := env.extraction_time + env.validation_time }
        if strContains e "'vendor_name'" then
          let entry := { entry0 with
            review_status := some "needs_review", confidence := some (1/10),
            file_name := some env.basename,
            reason := some "Non-invoice document detected" }
          Except.ok
            { retval := PipelineOutcome.entry entry, sink := Sink.anomalies, saved := entry }
        else
          Except.ok
            { retval := PipelineOutcome.entry entry0, sink := Sink.invoices, saved := entry0 }
      | Except.ok validation_result =>
        if validation_result.status ≠ "valid" then
          let extracted_dict := { extracted_dict with
            validation_status := validation_result.status,
            review_status := "needs_review" }
          if extracted_dict.vendor_name = "" then
            let extracted_dict := { extracted_dict with
              confidence := 1/10,
              file_name := some env.basename,
              reason := some "Non-invoice document detected" }
            let entry := { baseRecord extracted_dict with
              validation_errors := some validation_result.errors,
              matching_status := some "skipped",
              extraction_time := env.extraction_time,
              validation_time := env.validation_time,
              matching_time := 0, review_time := 0,
              total_time := env.extraction_time + env.validation_time }
            let ret : AnomalyReturn :=
              { anomaly := true,
                extracted_data := extracted_dict,
                validation_result := validation_result,
                matching_result :=
                  { status := "skipped", po_number := none, match_confidence := 0 },
                review_status := "skipped",
                review_invoice_data := extracted_dict,
                extraction_time := env.extraction_time,
                validation_time := env.validation_time,
                matching_time := 0, review_time := 0,
                total_time := env.extraction_time + env.validation_time }
            Except.ok
              { retval := PipelineOutcome.anomalous ret, sink := Sink.anomalies, saved := entry }
          else
            Except.ok (processFromMatching env extracted_dict validation_result)
        else
          let extracted_dict := { extracted_dict with
            validation_status := validation_result.status }
          Except.ok (processFromMatching env extracted_dict validation_result)

/-! ## Theorems -/

lemma range_three : List.range 3 = [0, 1, 2] := by decide

/-- C3: the retry wrapper makes at most 3 attempts of the wrapped
operation (its outcome depends only on the first three per-attempt
outcomes); before attempt k (1-indexed, k ≥ 2) it sleeps
base_delay * 2^(k-2) seconds; if an attempt succeeds its result is
returned — an operation failing its first 2 attempts and succeeding on
the 3rd yields the successful result after exactly 2 sleeps of base then
2×base; if the final attempt fails, the original (last) exception
propagates to the caller. -/
theorem claim_C3 {α : Type} (f g : ℕ → Except String α) (base_delay : ℚ) :
    ((∀ i, i < 3 → f i = g i) →
        InvoiceProcessingWorkflow.retry_with_backoff f 3 base_delay =
          InvoiceProcessingWorkflow.retry_with_backoff g 3 base_delay) ∧
    (∀ a, f 0 = Except.ok a →
        InvoiceProcessingWorkflow.retry_with_backoff f 3 base_delay =
          ([], RetryOutcome.ok a)) ∧
    (∀ e0 a, f 0 = Except.error e0 → f 1 = Except.ok a →
        InvoiceProcessingWorkflow.retry_with_backoff f 3 base_delay =
          ([base_delay], RetryOutcome.ok a)) ∧
    (∀ e0 e1 a, f 0 = Except.error e0 → f 1 = Except.error e1 → f 2 = Except.ok a →
        InvoiceProcessingWorkflow.retry_with_backoff f 3 base_delay =
          ([base_delay, base_delay * 2], RetryOutcome.ok a)) ∧
    (∀ e0 e1 e2, f 0 = Except.error e0 → f 1 = Except.error e1 → f 2 = Except.error e2 →
        InvoiceProcessingWorkflow.retry_with_backoff f 3 base_delay =
          ([base_delay, base_delay * 2], RetryOutcome.raised e2)) := by
  refine ⟨?_, ?_, ?_, ?_, ?_⟩
  · intro h
    have h0 := h 0 (by norm_num)
    have h1 := h 1 (by norm_num)
    have h2 := h 2 (by norm_num)
    simp [InvoiceProcessingWorkflow.retry_with_backoff, range_three, retryOver, h0, h1, h2]
  · intro a h0
    simp [InvoiceProcessingWorkflow.retry_with_backoff, range_three, retryOver, h0]
  · intro e0 a h0 h1
    simp [InvoiceProcessingWorkflow.retry_with_backoff, range_three, retryOver, h0, h1]
  · intro e0 e1 a h0 h1 h2
    simp [InvoiceProcessingWorkflow.retry_with_backoff, range_three, retryOver, h0, h1, h2]
  · intro e0 e1 e2 h0 h1 h2
    simp [InvoiceProcessingWorkflow.retry_with_backoff, range_three, retryOver, h0, h1, h2]

/-- An operation that fails its first two attempts and succeeds on the
third, for exercising the retry wrapper. -/
def retryDemo : ℕ → Except String ℕ :=
  fun i => if i < 2 then Except.error "transient failure" else Except.ok 7

theorem claim_C3_witness :
    InvoiceProcessingWorkflow.retry_with_backoff retryDemo 3 1 = ([1, 2], RetryOutcome.ok 7) := by
  have h := (claim_C3 retryDemo retryDemo 1).2.2.2.1 "transient failure" "transient failure" 7
    rfl rfl rfl
  rw [h]
  norm_num

lemma retry3_not_noAttempt {α : Type} (f : ℕ → Except String α) :
    (InvoiceProcessingWorkflow.retry_with_backoff f 3 1).2 ≠ RetryOutcome.noAttempt := by
  rcases h0 : f 0 with e0 | a0 <;> rcases h1 : f 1 with e1 | a1 <;>
    rcases h2 : f 2 with e2 | a2 <;>
    simp [InvoiceProcessingWorkflow.retry_with_backoff, range_three, retryOver, h0, h1, h2]

/-- A retry-wrapped stage call returns the first success among the three
attempts, else the third attempt's outcome. -/
lemma runStage_eq {α : Type} (f : ℕ → Except String α) :
    runStage f =
      match f 0 with
      | Except.ok a => Except.ok a
      | Except.error _ =>
        match f 1 with
        | Except.ok a => Except.ok a
        | Except.error _ => f 2 := by
  rcases h0 : f 0 with e0 | a0 <;> rcases h1 : f 1 with e1 | a1 <;>
    rcases h2 : f 2 with e2 | a2 <;>
    simp [runStage, InvoiceProcessingWorkflow.retry_with_backoff, range_three, retryOver,
      h0, h1, h2]

lemma dictSet_cons_ne (p : String × String) (ps : List (String × String)) (k v : String)
    (hp : p.1 ≠ k) : dictSet (p :: ps) k v = p :: dictSet ps k v := by
  by_cases hq : ps.any (fun q => decide (q.1 = k)) = true <;>
    simp [dictSet, List.any_cons, hp, hq]

lemma dictSet_lookup_self (k v : String) :
    ∀ d : List (String × String), (dictSet d k v).lookup k = some v := by
  intro d
  induction d with
  | nil => simp [dictSet, List.lookup]
  | cons p ps ih =>
    by_cases hp : p.1 = k
    · have : dictSet (p :: ps) k v =
          (k, v) :: ps.map (fun q => if q.1 = k then (k, v) else q) := by
        simp [dictSet, List.any_cons, hp]
      rw [this]
      simp [List.lookup]
    · rw [dictSet_cons_ne p ps k v hp]
      have hbeq : (k == p.1) = false := by
        simp only [beq_eq_false_iff_ne, ne_eq]
        exact fun h => hp h.symm
      simp [List.lookup, hbeq, ih]

lemma lookup_map_overwrite_ne (k v k' : String) (hne : k' ≠ k) :
    ∀ ps : List (String × String),
      (ps.map (fun q => if q.1 = k then (k, v) else q)).lookup k' = ps.lookup k' := by
  intro ps
  induction ps with
  | nil => rfl
  | cons q qs ih =>
    rw [List.map_cons]
    by_cases hq : q.1 = k
    · have h1 : (k' == k) = false := by
        simp only [beq_eq_false_iff_ne, ne_eq]
        exact hne
      have h2 : (k' == q.1) = false := by
        simp only [beq_eq_false_iff_ne, ne_eq, hq]
        exact hne
      rw [if_pos hq]
      simp only [List.lookup, h1, h2, ih]
    · rw [if_neg hq]
      simp only [List.lookup, ih]

lemma dictSet_lookup_ne (k v k' : String) (hne : k' ≠ k) :
    ∀ d : List (String × String), (dictSet d k v).lookup k' = d.lookup k' := by
  intro d
  induction d with
  | nil =>
    have h1 : (k' == k) = false := by
      simp only [beq_eq_false_iff_ne, ne_eq]
      exact hne
    simp [dictSet, List.lookup, h1]
  | cons p ps ih =>
    by_cases hp : p.1 = k
    · have hd : dictSet (p :: ps) k v =
          (k, v) :: ps.map (fun q => if q.1 = k then (k, v) else q) := by
        simp [dictSet, List.any_cons, hp]
      rw [hd]
      have h1 : (k' == k) = false := by
        simp only [beq_eq_false_iff_ne, ne_eq]
        exact hne
      have h2 : (k' == p.1) = false := by
        simp only [beq_eq_false_iff_ne, ne_eq, hp]
        exact hne
      simp only [List.lookup, h1, h2, lookup_map_overwrite_ne k v k' hne]
    · rw [dictSet_cons_ne p ps k v hp]
      cases hb : (k' == p.1) <;> simp only [List.lookup, hb, ih]

lemma dictUpdate_cons (d : List (String × String)) (p : String × String)
    (other : List (String × String)) :
    dictUpdate d (p :: other) = dictUpdate (dictSet d p.1 p.2) other := rfl

lemma dictUpdate_append (d xs ys : List (String × String)) :
    dictUpdate d (xs ++ ys) = dictUpdate (dictUpdate d xs) ys := by
  simp [dictUpdate, List.foldl_append]

lemma dictUpdate_lookup_notin (k : String) :
    ∀ (other d : List (String × String)), (∀ p ∈ other, p.1 ≠ k) →
      (dictUpdate d other).lookup k = d.lookup k := by
  intro other
  induction other with
  | nil => intro d _; rfl
  | cons q qs ih =>
    intro d h
    rw [dictUpdate_cons]
    rw [ih (dictSet d q.1 q.2) (fun p hp => h p (List.mem_cons_of_mem q hp))]
    exact dictSet_lookup_ne q.1 q.2 k (Ne.symm (h q (List.mem_cons_self q qs))) d

/-- C5: the review stage returns status "needs_review" if the invoice's
confidence is < 0.8 or the validation status is not "valid" (echoing the
invoice data and the validation error map), and returns status "approved"
(echoing the invoice data, with no error map) otherwise; it is a total
function with no other effect. -/
theorem claim_C5 (invoice_data : InvoiceData) (validation_result : ValidationResult) :
    (invoice_data.confidence < 8/10 ∨ validation_result.status ≠ "valid" →
      HumanReviewAgent.run invoice_data validation_result =
        { status := "needs_review", invoice_data := invoice_data,
          validation_errors := some validation_result.errors }) ∧
    (8/10 ≤ invoice_data.confidence → validation_result.status = "valid" →
      HumanReviewAgent.run invoice_data validation_result =
        { status := "approved", invoice_data := invoice_data,
          validation_errors := none }) := by
  constructor
  · intro h
    unfold HumanReviewAgent.run
    rw [if_pos h]
  · intro h1 h2
    unfold HumanReviewAgent.run
    rw [if_neg]
    rintro (hc | hs)
    · exact absurd hc (not_lt.mpr h1)
    · exact hs h2

/-- The sample invoice from the agents' `__main__` demos. -/
def demoInvoice : InvoiceData :=
  { vendor_name := "ABC Corp Ltd.", invoice_number := "INV-2024-001",
    invoice_date := "2024-02-18", total_amount := "7595.00",
    confidence := 955/1000, po_number := none, tax_amount := none, currency := none }

/-- A passing validation verdict. -/
def demoValidResult : ValidationResult := { status := "valid", errors := [] }

theorem claim_C5_witness :
    HumanReviewAgent.run demoInvoice demoValidResult =
      { status := "approved", invoice_data := demoInvoice, validation_errors := none } :=
  (claim_C5 demoInvoice demoValidResult).2 (by norm_num [demoInvoice]) rfl

lemma outlierAnomaly_key (past : List InvoiceData) (invoice_data : InvoiceData) :
    ∀ p ∈ outlierAnomaly past invoice_data, p.1 = "total_amount" := by
  intro p hp
  simp only [outlierAnomaly] at hp
  split at hp
  · exact absurd hp (List.not_mem_nil p)
  · split at hp
    · exact absurd hp (List.not_mem_nil p)
    · split at hp
      · exact absurd hp (List.not_mem_nil p)
      · split at hp
        · rw [List.mem_singleton] at hp
          rw [hp]
        · exact absurd hp (List.not_mem_nil p)

lemma duplicateAnomaly_pos (past : List InvoiceData) (invoice_data : InvoiceData)
    (p : InvoiceData) (hp : p ∈ past)
    (hnum : p.invoice_number = invoice_data.invoice_number) :
    duplicateAnomaly past invoice_data =
      [("duplicate", "Duplicate invoice number: " ++ invoice_data.invoice_number)] := by
  unfold duplicateAnomaly
  rw [if_pos]
  exact List.any_eq_true.mpr ⟨p, hp, decide_eq_true hnum⟩

/-- C9: duplicate detection is stateful across calls on one
validation-stage instance: if the detector's history already contains an
invoice with the exact same invoice number, validating another invoice
with that number yields an error map whose "duplicate" key carries the
message naming the invoice number; and each validation appends the
current invoice to the history. -/
theorem claim_C9 (det : AnomalyDetector) (invoice_data : InvoiceData)
    (p : InvoiceData) (hp : p ∈ det.past_invoices)
    (hnum : p.invoice_number = invoice_data.invoice_number) :
    (InvoiceValidationAgent.run det invoice_data).1.errors.lookup "duplicate" =
        some ("Duplicate invoice number: " ++ invoice_data.invoice_number) ∧
      (InvoiceValidationAgent.run det invoice_data).2.past_invoices =
        det.past_invoices ++ [invoice_data] := by
  constructor
  · have hdup := duplicateAnomaly_pos det.past_invoices invoice_data p hp hnum
    have hout := outlierAnomaly_key det.past_invoices invoice_data
    simp only [InvoiceValidationAgent.run, validationErrors, AnomalyDetector.detect_anomalies]
    rw [hdup, dictUpdate_append]
    rw [dictUpdate_lookup_notin "duplicate" _ _
      (fun q hq => by rw [hout q hq]; decide)]
    rw [dictUpdate_cons]
    exact dictSet_lookup_self "duplicate" _ _
  · rfl

/-- A previously validated invoice numbered INV-001. -/
def dupFirstInvoice : InvoiceData :=
  { vendor_name := "XYZ Inc.", invoice_number := "INV-001",
    invoice_date := "2024-02-17", total_amount := "1000.00",
    confidence := 9/10, po_number := none, tax_amount := none, currency := none }

/-- A later invoice reusing the number INV-001. -/
def dupSecondInvoice : InvoiceData :=
  { vendor_name := "ABC Corp Ltd.", invoice_number := "INV-001",
    invoice_date := "2024-02-18", total_amount := "950.00",
    confidence := 9/10, po_number := none, tax_amount := none, currency := none }

theorem claim_C9_witness :
    (InvoiceValidationAgent.run { past_invoices := [dupFirstInvoice] }
        dupSecondInvoice).1.errors.lookup "duplicate" =
        some ("Duplicate invoice number: " ++ dupSecondInvoice.invoice_number) ∧
      (InvoiceValidationAgent.run { past_invoices := [dupFirstInvoice] }
        dupSecondInvoice).2.past_invoices = [dupFirstInvoice] ++ [dupSecondInvoice] :=
  claim_C9 { past_invoices := [dupFirstInvoice] } dupSecondInvoice dupFirstInvoice
    (List.mem_cons_self dupFirstInvoice []) rfl

/-- C6: the validation stage reports status "valid" iff its error map is
empty; and every invoice with all required fields present, a valid
YYYY-MM-DD date, a non-negative parseable total amount, confidence ≥ 0.8
and no duplicate or outlier anomaly signal against the history validates
as "valid". -/
theorem claim_C6 (det : AnomalyDetector) (invoice_data : InvoiceData) :
    ((InvoiceValidationAgent.run det invoice_data).1.status = "valid" ↔
        (InvoiceValidationAgent.run det invoice_data).1.errors = []) ∧
      (invoice_data.vendor_name ≠ "" → invoice_data.invoice_number ≠ "" →
        invoice_data.invoice_date ≠ "" → validYMD invoice_data.invoice_date = true →
        invoice_data.total_amount ≠ "" →
        ∀ t : ℚ, pyFloat? invoice_data.total_amount = some t → 0 ≤ t →
        8/10 ≤ invoice_data.confidence →
        duplicateAnomaly det.past_invoices invoice_data = [] →
        outlierAnomaly det.past_invoices invoice_data = [] →
        (InvoiceValidationAgent.run det invoice_data).1.status = "valid") := by
  constructor
  · rcases h : validationErrors det invoice_data with _ | ⟨q, qs⟩ <;>
      simp [InvoiceValidationAgent.run, h]
  · intro h1 h2 h3 h4 h5 t hparse ht h6 hdup hout
    have herr : validationErrors det invoice_data = [] := by
      simp only [validationErrors, AnomalyDetector.detect_anomalies, hparse, h4, hdup, hout,
        if_neg h1, if_neg h2, if_neg h3, if_neg h5, if_neg (not_lt.mpr ht),
        if_neg (not_lt.mpr h6), eq_self_iff_true, if_true, List.nil_append]
      rfl
    simp [InvoiceValidationAgent.run, herr]

theorem claim_C6_witness :
    (InvoiceValidationAgent.run { past_invoices := [] } demoInvoice).1.status = "valid" :=
  (claim_C6 { past_invoices := [] } demoInvoice).2
    (by decide) (by decide) (by decide) (by decide) (by decide)
    7595 (by simp [demoInvoice, pyFloat?, pyFloatParts?, natOfDigits])
    (by norm_num) (by norm_num [demoInvoice]) rfl rfl

lemma lookup_mem {α β : Type} [BEq α] [LawfulBEq α] (k : α) (v : β) :
    ∀ l : List (α × β), l.lookup k = some v → (k, v) ∈ l := by
  intro l
  induction l with
  | nil => intro h; simp [List.lookup] at h
  | cons p ps ih =>
    intro h
    simp only [List.lookup] at h
    cases hb : (k == p.1)
    · rw [hb] at h
      exact List.mem_cons_of_mem p (ih h)
    · rw [hb] at h
      simp only [Option.some.injEq] at h
      have hk : k = p.1 := eq_of_beq hb
      have : (k, v) = p := by
        rw [hk, ← h]
      rw [this]
      exact List.mem_cons_self p ps

/-- C7 counterexample: the claim says a mapping of bare values with no
confidence sub-structure yields the fixed default 0.95, but the code only
special-cases the "vendor_name" key — a bare-values mapping without that
key falls through to the empty-confidence-list branch and yields 0.0. -/
theorem claim_C7_counterexample :
    compute_confidence_score [("a", PyVal.vstr "x")] = 0 ∧ (0 : ℚ) ≠ 95/100 := by
  constructor
  · rfl
  · norm_num

/-- C7 (amended): the confidence scorer is total and case-defined: an
empty mapping yields 0.0; a mapping whose "vendor_name" entry is a bare
(non-dict) value yields the fixed default 0.95; a mapping of bare values
without a "vendor_name" key yields 0.0 (no confidences are found); a
mapping in which every entry is a nested structure carrying a numeric
confidence yields the arithmetic mean of those confidences (0.9 and 0.7
yield 0.8); and it never throws — every internal error path yields
0.0. -/
theorem claim_C7 (d : List (String × PyVal)) :
    compute_confidence_score [] = 0 ∧
    (hasBareVendorName d = true → compute_confidence_score d = 95/100) ∧
    (d ≠ [] → d.lookup "vendor_name" = none →
      (∀ p ∈ d, ∀ fields, p.2 ≠ PyVal.vdict fields) →
      compute_confidence_score d = 0) ∧
    ((∀ p ∈ d, ∃ fields q, p.2 = PyVal.vdict fields ∧
        fields.lookup "confidence" = some (PyVal.vnum q)) →
      d ≠ [] →
      compute_confidence_score d =
        (confidencesOf d).sum / ((confidencesOf d).length : ℚ)) ∧
    compute_confidence_score scorerRoundTripInput = 8/10 := by
  refine ⟨rfl, ?_, ?_, ?_, ?_⟩
  · intro h
    cases d with
    | nil => simp [hasBareVendorName, List.lookup] at h
    | cons q qs => simp [compute_confidence_score, h]
  · intro hne hno hnodict
    have hbare : hasBareVendorName d = false := by
      simp [hasBareVendorName, hno]
    have hanyf : anyNonNumericConfidence d = false := by
      rw [anyNonNumericConfidence, List.any_eq_false]
      intro p hp
      rcases hv : p.2 with s | q | fields
      · simp [hv]
      · simp [hv]
      · exact absurd hv (hnodict p hp fields)
    have hconf : confidencesOf d = [] := by
      rw [confidencesOf, List.filterMap_eq_nil_iff]
      intro p hp
      rcases hv : p.2 with s | q | fields
      · simp [hv]
      · simp [hv]
      · exact absurd hv (hnodict p hp fields)
    cases d with
    | nil => exact absurd rfl hne
    | cons q qs => simp [compute_confidence_score, hbare, hanyf, hconf]
  · intro hall hne
    have hbare : hasBareVendorName d = false := by
      rw [hasBareVendorName]
      cases hl : d.lookup "vendor_name" with
      | none => rfl
      | some v =>
        obtain ⟨fields, qv, hv, _⟩ := hall ("vendor_name", v) (lookup_mem _ v d hl)
        have hv2 : v = PyVal.vdict fields := hv
        rw [hv2]
    have hanyf : anyNonNumericConfidence d = false := by
      rw [anyNonNumericConfidence, List.any_eq_false]
      intro p hp
      obtain ⟨fields, qv, hv, hc⟩ := hall p hp
      simp [hv, hc]
    cases d with
    | nil => exact absurd rfl hne
    | cons q qs =>
      obtain ⟨fields, qv, hv, hc⟩ := hall q (List.mem_cons_self q qs)
      have hfq : confidencesOf (q :: qs) = qv :: confidencesOf qs := by
        simp only [confidencesOf, List.filterMap_cons, hv, hc]
      simp only [compute_confidence_score, List.isEmpty_cons, hbare, hanyf, Bool.false_eq_true,
        if_false]
      rw [if_neg]
      simp [hfq]
  · have h1 : hasBareVendorName scorerRoundTripInput = false := by decide
    have h2 : anyNonNumericConfidence scorerRoundTripInput = false := by decide
    have h3 : confidencesOf scorerRoundTripInput = [9/10, 7/10] := rfl
    have h4 : scorerRoundTripInput.isEmpty = false := rfl
    rw [compute_confidence_score, h1, h2, h3, h4]
    norm_num

/-- Python `max(xs, key=...)` keeps the first element attaining the
maximum: the fold the matching agent's selection performs decomposes the
candidate list into a strictly-smaller prefix, the chosen element, and a
no-larger remainder. -/
lemma foldl_first_max (ms : List (String × ℚ)) :
    ∀ m : String × ℚ,
      ∃ l1 l2,
        m :: ms = l1 ++ (ms.foldl (fun acc x => if x.2 > acc.2 then x else acc) m) :: l2 ∧
        (∀ x ∈ l1, x.2 < (ms.foldl (fun acc x => if x.2 > acc.2 then x else acc) m).2) ∧
        (∀ x ∈ m :: ms, x.2 ≤ (ms.foldl (fun acc x => if x.2 > acc.2 then x else acc) m).2) := by
  induction ms with
  | nil =>
    intro m
    exact ⟨[], [], rfl, by simp, by simp⟩
  | cons y ys ih =>
    intro m
    rw [List.foldl_cons]
    by_cases hy : y.2 > m.2
    · rw [if_pos hy]
      obtain ⟨l1, l2, heq, hlt, hle⟩ := ih y
      refine ⟨m :: l1, l2, ?_, ?_, ?_⟩
      · rw [List.cons_append, ← heq]
      · intro x hx
        rcases List.mem_cons.mp hx with rfl | hx1
        · exact lt_of_lt_of_le hy (hle y (List.mem_cons_self y ys))
        · exact hlt x hx1
      · intro x hx
        rcases List.mem_cons.mp hx with rfl | hx1
        · exact le_of_lt (lt_of_lt_of_le hy (hle y (List.mem_cons_self y ys)))
        · exact hle x hx1
    · rw [if_neg hy]
      obtain ⟨l1, l2, heq, hlt, hle⟩ := ih m
      have hyle : y.2 ≤ m.2 := not_lt.mp hy
      have hmle := hle m (List.mem_cons_self m ys)
      cases l1 with
      | nil =>
        have hb : ys.foldl (fun acc x => if x.2 > acc.2 then x else acc) m = m := by
          have := heq
          rw [List.nil_append] at this
          exact (List.cons.injEq _ _ _ _).mp this |>.1.symm
        have hl2 : l2 = ys := by
          have := heq
          rw [List.nil_append] at this
          exact ((List.cons.injEq _ _ _ _).mp this).2.symm
        refine ⟨[], y :: ys, ?_, by simp, ?_⟩
        · rw [List.nil_append, hb]
        · intro x hx
          rcases List.mem_cons.mp hx with rfl | hx1
          · exact hmle
          · rcases List.mem_cons.mp hx1 with rfl | hx2
            · rw [hb]
              exact hyle
            · exact hle x (List.mem_cons_of_mem m hx2)
      | cons a t =>
        have ha : a = m := by
          have := heq
          rw [List.cons_append] at this
          exact ((List.cons.injEq _ _ _ _).mp this).1.symm
        have hys : ys = t ++ (ys.foldl (fun acc x => if x.2 > acc.2 then x else acc) m) :: l2 := by
          have := heq
          rw [List.cons_append] at this
          exact ((List.cons.injEq _ _ _ _).mp this).2
        have hmlt : m.2 < (ys.foldl (fun acc x => if x.2 > acc.2 then x else acc) m).2 := by
          have := hlt a (List.mem_cons_self a t)
          rw [ha] at this
          exact this
        refine ⟨m :: y :: t, l2, ?_, ?_, ?_⟩
        · rw [List.cons_append, List.cons_append, ← hys]
        · intro x hx
          rcases List.mem_cons.mp hx with rfl | hx1
          · exact hmlt
          · rcases List.mem_cons.mp hx1 with rfl | hx2
            · exact lt_of_le_of_lt hyle hmlt
            · exact hlt x (List.mem_cons_of_mem a hx2)
        · intro x hx
          rcases List.mem_cons.mp hx with rfl | hx1
          · exact hmle
          · rcases List.mem_cons.mp hx1 with rfl | hx2
            · exact le_trans hyle hmle
            · exact hle x (List.mem_cons_of_mem m hx2)

/-- C8: the matching stage selects the single best-scoring reference row
whose normalized vendor-similarity score exceeds the fixed acceptance
threshold 0.85, returning status "matched" with that row's PO number and
score; with ties at the maximum the first such row in table iteration
order wins (the candidate list splits into a strictly-smaller prefix, the
winner, and a no-larger remainder); if no row clears the threshold it
returns status "unmatched" with no PO number and confidence 0.0. -/
theorem claim_C8 (fuzzRatio : String → String → ℕ) (po_data : List PORow)
    (invoice_data : InvoiceData) :
    ((∀ po ∈ po_data,
        ¬(85/100 <
          (fuzzRatio (strLower invoice_data.vendor_name) (strLower po.vendor_name) : ℚ) / 100)) →
      PurchaseOrderMatchingAgent.run fuzzRatio po_data invoice_data =
        { status := "unmatched", po_number := none, match_confidence := 0 }) ∧
    (matchCandidates fuzzRatio po_data invoice_data ≠ [] →
      ∃ best l1 l2,
        PurchaseOrderMatchingAgent.run fuzzRatio po_data invoice_data =
          { status := "matched", po_number := some best.1, match_confidence := best.2 } ∧
        matchCandidates fuzzRatio po_data invoice_data = l1 ++ best :: l2 ∧
        (∀ x ∈ l1, x.2 < best.2) ∧
        (∀ x ∈ matchCandidates fuzzRatio po_data invoice_data, x.2 ≤ best.2)) := by
  constructor
  · intro h
    have hc : matchCandidates fuzzRatio po_data invoice_data = [] := by
      rw [matchCandidates, List.filterMap_eq_nil_iff]
      intro po hpo
      rw [ite_eq_right_iff]
      intro hcond
      exact absurd hcond (h po hpo)
    simp [PurchaseOrderMatchingAgent.run, hc]
  · intro hne
    rcases hc : matchCandidates fuzzRatio po_data invoice_data with _ | ⟨m, ms⟩
    · exact absurd hc hne
    · obtain ⟨l1, l2, heq, hlt, hle⟩ := foldl_first_max ms m
      refine ⟨_, l1, l2, ?_, ?_, hlt, ?_⟩
      · simp [PurchaseOrderMatchingAgent.run, hc]
      · exact heq
      · exact hle

/-- An external scorer that reports a perfect token-sort match for every
pair, together with a one-row reference table. -/
def fuzzDemo : String → String → ℕ := fun _ _ => 100

/-- A one-row PO reference table. -/
def poTableDemo : List PORow :=
  [{ vendor_name := "ABC Corp Ltd.", approved_po := "PO-2024-001" }]

theorem claim_C8_witness :
    ∃ best l1 l2,
      PurchaseOrderMatchingAgent.run fuzzDemo poTableDemo demoInvoice =
        { status := "matched", po_number := some best.1, match_confidence := best.2 } ∧
      matchCandidates fuzzDemo poTableDemo demoInvoice = l1 ++ best :: l2 ∧
      (∀ x ∈ l1, x.2 < best.2) ∧
      (∀ x ∈ matchCandidates fuzzDemo poTableDemo demoInvoice, x.2 ≤ best.2) :=
  (claim_C8 fuzzDemo poTableDemo demoInvoice).2
    (by norm_num [matchCandidates, poTableDemo, fuzzDemo]; simp)

lemma copy_ok (env : WorkflowEnv)
    (h : env.in_temp = true ∨ env.copy_to_temp = Except.ok ()) :
    (if env.in_temp then Except.ok () else env.copy_to_temp) = Except.ok () := by
  rcases h with h | h
  · simp [h]
  · cases henv : env.in_temp <;> simp [h]

/-- The `extracted_dict` as it stands on the anomaly short-circuit, after
the orchestrator's overwrites: confidence forced to 0.1, review status
forced to "needs_review", file name and fixed reason attached. -/
def anomalyDict (env : WorkflowEnv) (ed : InvoiceData) (vr : ValidationResult) :
    ExtractedDict :=
  { vendor_name := ed.vendor_name, invoice_number := ed.invoice_number,
    invoice_date := ed.invoice_date, total_amount := ed.total_amount,
    confidence := 1/10, po_number := ed.po_number, tax_amount := ed.tax_amount,
    currency := ed.currency, validation_status := vr.status,
    review_status := "needs_review", file_name := some env.basename,
    reason := some "Non-invoice document detected" }

/-- The record the anomaly short-circuit hands to `_save_anomaly_entry`. -/
def anomalyEntry (env : WorkflowEnv) (ed : InvoiceData) (vr : ValidationResult) :
    InvoiceRecord :=
  { baseRecord (anomalyDict env ed vr) with
    validation_errors := some vr.errors,
    matching_status := some "skipped",
    extraction_time := env.extraction_time, validation_time := env.validation_time,
    matching_time := 0, review_time := 0,
    total_time := env.extraction_time + env.validation_time }

/-- The nested dict the anomaly short-circuit returns to the caller. -/
def anomalyRet (env : WorkflowEnv) (ed : InvoiceData) (vr : ValidationResult) :
    AnomalyReturn :=
  { anomaly := true, extracted_data := anomalyDict env ed vr, validation_result := vr,
    matching_result := { status := "skipped", po_number := none, match_confidence := 0 },
    review_status := "skipped", review_invoice_data := anomalyDict env ed vr,
    extraction_time := env.extraction_time, validation_time := env.validation_time,
    matching_time := 0, review_time := 0,
    total_time := env.extraction_time + env.validation_time }

/-- The anomaly short-circuit: extraction succeeded, validation reported a
non-valid status, and the extracted vendor name is empty. -/
lemma path_anomaly (env : WorkflowEnv) (ed : InvoiceData) (vr : ValidationResult)
    (hcopy : env.in_temp = true ∨ env.copy_to_temp = Except.ok ())
    (hext : runStage env.extraction = Except.ok ed)
    (hval : runStage env.validation = Except.ok vr)
    (hstatus : vr.status ≠ "valid")
    (hvendor : ed.vendor_name = "") :
    InvoiceProcessingWorkflow.process_invoice env =
      Except.ok { retval := PipelineOutcome.anomalous (anomalyRet env ed vr),
                  sink := Sink.anomalies, saved := anomalyEntry env ed vr } := by
  have hc := copy_ok env hcopy
  simp only [InvoiceProcessingWorkflow.process_invoice, hc, hext, hval]
  rw [if_pos hstatus, if_pos hvendor]
  rfl

/-- C2: a run whose validation status is not "valid" and whose extracted
vendor name is empty is classified as an anomaly: matching and review
results are synthesized as "skipped", the record's confidence is forced
to 0.1, the source file name and the fixed reason string "Non-invoice
document detected" are attached, and the record is written to the anomaly
sink rather than the invoice sink. -/
theorem claim_C2 (env : WorkflowEnv) (ed : InvoiceData) (vr : ValidationResult)
    (hcopy : env.in_temp = true ∨ env.copy_to_temp = Except.ok ())
    (hext : runStage env.extraction = Except.ok ed)
    (hval : runStage env.validation = Except.ok vr)
    (hstatus : vr.status ≠ "valid")
    (hvendor : ed.vendor_name = "") :
    ∃ (ar : AnomalyReturn) (entry : InvoiceRecord),
      InvoiceProcessingWorkflow.process_invoice env =
        Except.ok { retval := PipelineOutcome.anomalous ar, sink := Sink.anomalies,
                    saved := entry } ∧
      ar.matching_result = { status := "skipped", po_number := none, match_confidence := 0 } ∧
      ar.review_status = "skipped" ∧
      ar.extracted_data.confidence = 1/10 ∧
      ar.extracted_data.file_name = some env.basename ∧
      ar.extracted_data.reason = some "Non-invoice document detected" ∧
      entry.confidence = some (1/10) ∧
      entry.file_name = some env.basename ∧
      entry.reason = some "Non-invoice document detected" ∧
      entry.matching_status = some "skipped" :=
  ⟨anomalyRet env ed vr, anomalyEntry env ed vr,
    path_anomaly env ed vr hcopy hext hval hstatus hvendor,
    rfl, rfl, rfl, rfl, rfl, rfl, rfl, rfl, rfl⟩

/-- An extraction result with an empty vendor name and high raw
confidence. -/
def missingVendorInvoice : InvoiceData :=
  { vendor_name := "", invoice_number := "INV-0000", invoice_date := "2024-02-18",
    total_amount := "100.00", confidence := 95/100,
    po_number := none, tax_amount := none, currency := none }

/-- The verdict the validator gives `missingVendorInvoice`. -/
def missingVendorVerdict : ValidationResult :=
  { status := "failed", errors := [("vendor_name", "Missing")] }

/-- A run environment whose extraction yields `missingVendorInvoice` and
whose validation yields `missingVendorVerdict` on every attempt. -/
def missingVendorEnv : WorkflowEnv :=
  { in_temp := true, copy_to_temp := Except.ok (), basename := "scan-001.pdf",
    extraction := fun _ => Except.ok missingVendorInvoice,
    validation := fun _ => Except.ok missingVendorVerdict,
    matching := fun _ => Except.error "not reached",
    review := fun _ => Except.error "not reached",
    extraction_time := 1, validation_time := 1, matching_time := 1, review_time := 1,
    save_pdf := false }

theorem claim_C2_witness :
    ∃ (ar : AnomalyReturn) (entry : InvoiceRecord),
      InvoiceProcessingWorkflow.process_invoice missingVendorEnv =
        Except.ok { retval := PipelineOutcome.anomalous ar, sink := Sink.anomalies,
                    saved := entry } ∧
      ar.matching_result = { status := "skipped", po_number := none, match_confidence := 0 } ∧
      ar.review_status = "skipped" ∧
      ar.extracted_data.confidence = 1/10 ∧
      ar.extracted_data.file_name = some missingVendorEnv.basename ∧
      ar.extracted_data.reason = some "Non-invoice document detected" ∧
      entry.confidence = some (1/10) ∧
      entry.file_name = some missingVendorEnv.basename ∧
      entry.reason = some "Non-invoice document detected" ∧
      entry.matching_status = some "skipped" :=
  claim_C2 missingVendorEnv missingVendorInvoice missingVendorVerdict
    (Or.inl rfl) rfl rfl (by decide) rfl

/-- The `review_status` field of the record a run persisted (`none` when
the run raised or the record has no such key). -/
def savedReviewStatus : Except String RunResult → Option String
  | Except.ok r => r.saved.review_status
  | Except.error _ => none

/-- C10 counterexample: for the missing-vendor run whose extraction
confidence is 0.95 the initial 0.90-threshold value is "complete", yet
the persisted record's review status is "needs_review" — on the
validation short-circuit the orchestrator overwrites the initial value,
so the initial value does not persist there as claimed. -/
theorem claim_C10_counterexample :
    savedReviewStatus (InvoiceProcessingWorkflow.process_invoice missingVendorEnv) =
        some "needs_review" ∧
      (if missingVendorInvoice.confidence < 90/100 then "needs_review" else "complete") =
        "complete" ∧
      some "needs_review" ≠ some "complete" := by
  refine ⟨?_, ?_, by simp⟩
  · rw [path_anomaly missingVendorEnv missingVendorInvoice missingVendorVerdict
      (Or.inl rfl) rfl rfl (by decide) rfl]
    rfl
  · rw [if_neg]
    norm_num [missingVendorInvoice]

/-- The `extracted_dict` as first built after successful extraction:
validation status "pending" and the initial review status from the 0.90
threshold. -/
def initialExtractedDict (ed : InvoiceData) : ExtractedDict :=
  { vendor_name := ed.vendor_name, invoice_number := ed.invoice_number,
    invoice_date := ed.invoice_date, total_amount := ed.total_amount,
    confidence := ed.confidence, po_number := ed.po_number, tax_amount := ed.tax_amount,
    currency := ed.currency, validation_status := "pending",
    review_status := if ed.confidence < 90/100 then "needs_review" else "complete",
    file_name := none, reason := none }

/-- The record persisted when the validation stage exhausts its retries
and the exception text does not mention `'vendor_name'`. -/
def validationErrorEntry (env : WorkflowEnv) (ed : InvoiceData) (e : String) :
    InvoiceRecord :=
  { baseRecord (initialExtractedDict ed) with
    status := some "error", message := some e,
    extraction_time := env.extraction_time, validation_time := env.validation_time,
    matching_time := 0, review_time := 0,
    total_time := env.extraction_time + env.validation_time }

/-- The validation stage-error path with an exception text not mentioning
`'vendor_name'`: the record goes to the invoice sink and keeps the
extracted dict's fields, including the initial review status. -/
lemma path_validation_error_normal (env : WorkflowEnv) (ed : InvoiceData) (e : String)
    (hcopy : env.in_temp = true ∨ env.copy_to_temp = Except.ok ())
    (hext : runStage env.extraction = Except.ok ed)
    (hval : runStage env.validation = Except.error e)
    (hnv : strContains e "'vendor_name'" = false) :
    InvoiceProcessingWorkflow.process_invoice env =
      Except.ok { retval := PipelineOutcome.entry (validationErrorEntry env ed e),
                  sink := Sink.invoices, saved := validationErrorEntry env ed e } := by
  have hc := copy_ok env hcopy
  simp only [InvoiceProcessingWorkflow.process_invoice, hc, hext, hval, hnv,
    Bool.false_eq_true, if_false]
  rfl

/-- C10 (amended): after successful extraction the orchestrator
initializes the record's review status with a 0.90 threshold —
"needs_review" exactly when the extracted confidence is below 0.90 and
"complete" (not "approved") otherwise — a threshold and vocabulary
different from the 0.8/"approved" review policy; this initial value is
what persists on the validation stage-error path whose exception text
does not mention `'vendor_name'` (on the validation short-circuit it is
overwritten to "needs_review", and on the matching/review stage-error
paths to "skipped"/"error"). -/
theorem claim_C10 (env : WorkflowEnv) (ed : InvoiceData) (e : String)
    (hcopy : env.in_temp = true ∨ env.copy_to_temp = Except.ok ())
    (hext : runStage env.extraction = Except.ok ed)
    (hval : runStage env.validation = Except.error e)
    (hnv : strContains e "'vendor_name'" = false) :
    ∃ entry : InvoiceRecord,
      InvoiceProcessingWorkflow.process_invoice env =
        Except.ok { retval := PipelineOutcome.entry entry, sink := Sink.invoices,
                    saved := entry } ∧
      entry.review_status =
        some (if ed.confidence < 90/100 then "needs_review" else "complete") ∧
      entry.status = some "error" :=
  ⟨validationErrorEntry env ed e,
    path_validation_error_normal env ed e hcopy hext hval hnv, rfl, rfl⟩

/-- A run environment whose validation stage throws a generic exception
on every attempt. -/
def validationDownEnv : WorkflowEnv :=
  { in_temp := true, copy_to_temp := Except.ok (), basename := "inv.pdf",
    extraction := fun _ => Except.ok demoInvoice,
    validation := fun _ => Except.error "validation backend unavailable",
    matching := fun _ => Except.error "not reached",
    review := fun _ => Except.error "not reached",
    extraction_time := 1, validation_time := 1, matching_time := 1, review_time := 1,
    save_pdf := false }

theorem claim_C10_witness :
    ∃ entry : InvoiceRecord,
      InvoiceProcessingWorkflow.process_invoice validationDownEnv =
        Except.ok { retval := PipelineOutcome.entry entry, sink := Sink.invoices,
                    saved := entry } ∧
      entry.review_status =
        some (if demoInvoice.confidence < 90/100 then "needs_review" else "complete") ∧
      entry.status = some "error" :=
  claim_C10 validationDownEnv demoInvoice "validation backend unavailable"
    (Or.inl rfl) rfl rfl (by decide)

/-- The partial-failure record persisted when the matching stage exhausts
its retries. -/
def matchErrorEntry (env : WorkflowEnv) (d : ExtractedDict) (vr : ValidationResult)
    (e : String) : InvoiceRecord :=
  { baseRecord d with
    validation_status := some vr.status,
    matching_status := some "error",
    matching_error := some e,
    review_status := some "skipped",
    extraction_time := env.extraction_time,
    validation_time := env.validation_time,
    matching_time := env.matching_time,
    review_time := 0,
    total_time := env.extraction_time + env.validation_time + env.matching_time }

lemma processFromMatching_error (env : WorkflowEnv) (d : ExtractedDict)
    (vr : ValidationResult) (e : String)
    (hm : runStage env.matching = Except.error e) :
    processFromMatching env d vr =
      { retval := PipelineOutcome.entry (matchErrorEntry env d vr e), sink := Sink.invoices,
        saved := matchErrorEntry env d vr e } := by
  simp only [processFromMatching, hm]
  rfl

/-- C4: when the matching agent throws on every attempt (and the run
reached the matching stage), the run terminates with a partial-failure
record persisted to the normal invoice sink: matching status "error"
carrying the final attempt's exception, review status "skipped", the
extracted fields and validation status still present, and the partial
per-stage timings recorded (review time 0). -/
theorem claim_C4 (env : WorkflowEnv) (ed : InvoiceData) (vr : ValidationResult)
    (hcopy : env.in_temp = true ∨ env.copy_to_temp = Except.ok ())
    (hext : runStage env.extraction = Except.ok ed)
    (hval : runStage env.validation = Except.ok vr)
    (hnoanom : vr.status = "valid" ∨ ed.vendor_name ≠ "")
    (hmatch : ∀ n, ∃ e, env.matching n = Except.error e) :
    ∃ (e : String) (entry : InvoiceRecord),
      env.matching 2 = Except.error e ∧
      InvoiceProcessingWorkflow.process_invoice env =
        Except.ok { retval := PipelineOutcome.entry entry, sink := Sink.invoices,
                    saved := entry } ∧
      entry.matching_status = some "error" ∧
      entry.matching_error = some e ∧
      entry.review_status = some "skipped" ∧
      entry.vendor_name = some ed.vendor_name ∧
      entry.invoice_number = some ed.invoice_number ∧
      entry.invoice_date = some ed.invoice_date ∧
      entry.total_amount = some ed.total_amount ∧
      entry.confidence = some ed.confidence ∧
      entry.validation_status = some vr.status ∧
      entry.extraction_time = env.extraction_time ∧
      entry.validation_time = env.validation_time ∧
      entry.matching_time = env.matching_time ∧
      entry.review_time = 0 ∧
      entry.total_time = env.extraction_time + env.validation_time + env.matching_time := by
  obtain ⟨e0, h0⟩ := hmatch 0
  obtain ⟨e1, h1⟩ := hmatch 1
  obtain ⟨e2, h2⟩ := hmatch 2
  have hrs : runStage env.matching = Except.error e2 := by
    rw [runStage_eq]
    simp only [h0, h1]
    exact h2
  have hc := copy_ok env hcopy
  rcases eq_or_ne vr.status "valid" with hs | hs
  · refine ⟨e2, matchErrorEntry env { initialExtractedDict ed with validation_status := vr.status } vr e2, h2, ?_, rfl, rfl, rfl, rfl, rfl, rfl, rfl, rfl, rfl, rfl, rfl, rfl, rfl, rfl⟩
    simp only [InvoiceProcessingWorkflow.process_invoice, hc, hext, hval]
    rw [if_neg (fun hne => hne hs)]
    rw [processFromMatching_error env _ vr e2 hrs]
    rfl
  · have hv : ed.vendor_name ≠ "" := by
      rcases hnoanom with h | h
      · exact absurd h hs
      · exact h
    refine ⟨e2, matchErrorEntry env { initialExtractedDict ed with validation_status := vr.status, review_status := "needs_review" } vr e2, h2, ?_, rfl, rfl, rfl, rfl, rfl, rfl, rfl, rfl, rfl, rfl, rfl, rfl, rfl, rfl⟩
    simp only [InvoiceProcessingWorkflow.process_invoice, hc, hext, hval]
    rw [if_pos hs, if_neg hv]
    rw [processFromMatching_error env _ vr e2 hrs]
    rfl

/-- A run environment whose matching stage throws on every attempt. -/
def matchingDownEnv : WorkflowEnv :=
  { in_temp := true, copy_to_temp := Except.ok (), basename := "inv.pdf",
    extraction := fun _ => Except.ok demoInvoice,
    validation := fun _ => Except.ok demoValidResult,
    matching := fun _ => Except.error "po lookup failed",
    review := fun _ =>
      Except.ok { status := "approved", invoice_data := demoInvoice,
                  validation_errors := none },
    extraction_time := 2, validation_time := 3, matching_time := 4, review_time := 0,
    save_pdf := true }

theorem claim_C4_witness :
    ∃ (e : String) (entry : InvoiceRecord),
      matchingDownEnv.matching 2 = Except.error e ∧
      InvoiceProcessingWorkflow.process_invoice matchingDownEnv =
        Except.ok { retval := PipelineOutcome.entry entry, sink := Sink.invoices,
                    saved := entry } ∧
      entry.matching_status = some "error" ∧
      entry.matching_error = some e ∧
      entry.review_status = some "skipped" ∧
      entry.vendor_name = some demoInvoice.vendor_name ∧
      entry.invoice_number = some demoInvoice.invoice_number ∧
      entry.invoice_date = some demoInvoice.invoice_date ∧
      entry.total_amount = some demoInvoice.total_amount ∧
      entry.confidence = some demoInvoice.confidence ∧
      entry.validation_status = some demoValidResult.status ∧
      entry.extraction_time = matchingDownEnv.extraction_time ∧
      entry.validation_time = matchingDownEnv.validation_time ∧
      entry.matching_time = matchingDownEnv.matching_time ∧
      entry.review_time = 0 ∧
      entry.total_time = matchingDownEnv.extraction_time +
        matchingDownEnv.validation_time + matchingDownEnv.matching_time :=
  claim_C4 matchingDownEnv demoInvoice demoValidResult (Or.inl rfl) rfl rfl
    (Or.inl rfl) (fun _ => ⟨"po lookup failed", rfl⟩)

lemma processFromMatching_classified (env : WorkflowEnv) (d : ExtractedDict)
    (vr : ValidationResult) :
    match (processFromMatching env d vr).retval with
    | PipelineOutcome.entry entry =>
        entry.status = some "error" ∨ entry.matching_status = some "error" ∨
          entry.review_status = some "error"
    | _ => True := by
  rcases hm : runStage env.matching with e | mr
  · simp [processFromMatching, hm]
  · rcases hr : runStage env.review with e | rr
    · simp [processFromMatching, hm, hr]
    · simp [processFromMatching, hm, hr]

/-- The record persisted when the extraction stage exhausts its
retries. -/
def extractionErrorEntry (env : WorkflowEnv) (e : String) : InvoiceRecord :=
  { emptyRecord with
    status := some "error", message := some e,
    extraction_time := env.extraction_time, validation_time := 0, matching_time := 0,
    review_time := 0, total_time := env.extraction_time }

/-- The record persisted when the validation stage exhausts its retries
with an exception text that mentions the vendor-name field (routed to the
anomaly sink). -/
def validationErrorAnomalyEntry (env : WorkflowEnv) (ed : InvoiceData) (e : String) :
    InvoiceRecord :=
  { validationErrorEntry env ed e with
    review_status := some "needs_review", confidence := some (1/10),
    file_name := some env.basename, reason := some "Non-invoice document detected" }

/-- A run whose document path cannot be read: the initial copy into the
temp directory fails before the first `try`. -/
def unreadableDocEnv : WorkflowEnv :=
  { in_temp := false,
    copy_to_temp := Except.error "No such file or directory: missing.pdf",
    basename := "missing.pdf",
    extraction := fun _ => Except.error "not reached",
    validation := fun _ => Except.error "not reached",
    matching := fun _ => Except.error "not reached",
    review := fun _ => Except.error "not reached",
    extraction_time := 0, validation_time := 0, matching_time := 0, review_time := 0,
    save_pdf := false }

/-- C1 counterexample: the initial `shutil.copy2` into the temp directory
runs before the first `try`, so for a document path that cannot be read
the exception escapes `process_invoice` to the caller instead of being
encoded in a returned record — contradicting the claim for unreadable
documents. -/
theorem claim_C1_counterexample :
    InvoiceProcessingWorkflow.process_invoice unreadableDocEnv =
      Except.error "No such file or directory: missing.pdf" := rfl

/-- C1 (amended): for every document path whose initial copy into the
temp directory succeeds (in particular any path already under the temp
directory), and every behaviour of the four stage agents, process_invoice
returns a record rather than raising; every flat record it returns or
persists on a failure path is flagged in its status fields (`status`,
`matching_status` or `review_status` equal to "error"), and the remaining
outcomes are the self-describing anomaly and success records. -/
theorem claim_C1 (env : WorkflowEnv)
    (hcopy : env.in_temp = true ∨ env.copy_to_temp = Except.ok ()) :
    ∃ r : RunResult,
      InvoiceProcessingWorkflow.process_invoice env = Except.ok r ∧
      (match r.retval with
       | PipelineOutcome.entry entry =>
           entry.status = some "error" ∨ entry.matching_status = some "error" ∨
             entry.review_status = some "error"
       | _ => True) := by
  have hc := copy_ok env hcopy
  rcases hext : runStage env.extraction with e | ed
  · refine ⟨{ retval := PipelineOutcome.entry (extractionErrorEntry env e), sink := Sink.invoices, saved := extractionErrorEntry env e }, ?_, Or.inl rfl⟩
    simp only [InvoiceProcessingWorkflow.process_invoice, hc, hext]
    rfl
  · rcases hval : runStage env.validation with e | vr
    · cases hb : strContains e "'vendor_name'"
      · refine ⟨{ retval := PipelineOutcome.entry (validationErrorEntry env ed e), sink := Sink.invoices, saved := validationErrorEntry env ed e }, ?_, Or.inl rfl⟩
        exact path_validation_error_normal env ed e hcopy hext hval hb
      · refine ⟨{ retval := PipelineOutcome.entry (validationErrorAnomalyEntry env ed e), sink := Sink.anomalies, saved := validationErrorAnomalyEntry env ed e }, ?_, Or.inl rfl⟩
        simp only [InvoiceProcessingWorkflow.process_invoice, hc, hext, hval, hb, if_true]
        rfl
    · rcases eq_or_ne vr.status "valid" with hs | hs
      · refine ⟨processFromMatching env { initialExtractedDict ed with validation_status := vr.status } vr, ?_, processFromMatching_classified env _ vr⟩
        simp only [InvoiceProcessingWorkflow.process_invoice, hc, hext, hval]
        rw [if_neg (fun hne => hne hs)]
        rfl
      · by_cases hv : ed.vendor_name = ""
        · exact ⟨_, path_anomaly env ed vr hcopy hext hval hs hv, trivial⟩
        · refine ⟨processFromMatching env { initialExtractedDict ed with validation_status := vr.status, review_status := "needs_review" } vr, ?_, processFromMatching_classified env _ vr⟩
          simp only [InvoiceProcessingWorkflow.process_invoice, hc, hext, hval]
          rw [if_pos hs, if_neg hv]
          rfl

/-- A run environment whose extraction stage throws on every attempt. -/
def extractionFailEnv : WorkflowEnv :=
  { in_temp := true, copy_to_temp := Except.ok (), basename := "corrupt.pdf",
    extraction := fun _ => Except.error "unreadable PDF",
    validation := fun _ => Except.error "not reached",
    matching := fun _ => Except.error "not reached",
    review := fun _ => Except.error "not reached",
    extraction_time := 1, validation_time := 0, matching_time := 0, review_time := 0,
    save_pdf := false }

theorem claim_C1_witness :
    ∃ r : RunResult,
      InvoiceProcessingWorkflow.process_invoice extractionFailEnv = Except.ok r ∧
      (match r.retval with
       | PipelineOutcome.entry entry =>
           entry.status = some "error" ∨ entry.matching_status = some "error" ∨
             entry.review_status = some "error"
       | _ => True) :=
  claim_C1 extractionFailEnv (Or.inl rfl)

theorem claim_C7_witness :
    compute_confidence_score [("vendor_name", PyVal.vstr "Acme Systems")] = 95/100 :=
  (claim_C7 [("vendor_name", PyVal.vstr "Acme Systems")]).2.1 rfl
